/-
Verification of the credential-provisioning logic of the redis-k8s charm
(src/charm.py), as a shallow embedding in Lean 4.

The charm state is a record holding the pieces of `self` the verified
methods read or write: the leadership flag, the peer relation's
application databag (`self._peers.data[self.app]`, `Option` because
`self.model.get_relation(PEER)` can return `None`), the unit status, the
application status and the workload version.  The databag is an
association list with Python-dict `get`/`__setitem__` semantics.
Methods are embedded as state transformers returning
`Except PyErr (result × Charm)`; a Python exception escaping the method
(the `AttributeError` from dereferencing a `None` peer relation) is the
`.error` case.  `secrets.choice` is embedded by passing the random
indices chosen by the CSPRNG as an explicit argument `r : Fin 16 → Fin 62`.
-/
import Mathlib

set_option maxHeartbeats 1000000

/-- The peer databag: an insertion-ordered association list from string
keys to string values, mirroring the Python dict interface used by the
charm (`get` with a default and item assignment). -/
abbrev Databag : Type := List (String × String)

/-- Python `dict.get(k, default)`. -/
def dbGet (d : Databag) (k : String) (dflt : String) : String :=
  match d with
  | [] => dflt
  | p :: rest => if p.1 = k then p.2 else dbGet rest k dflt

/-- Python `dict.__setitem__`: update the existing entry in place, or
append a new entry at the end. -/
def dbSet (d : Databag) (k v : String) : Databag :=
  match d with
  | [] => [(k, v)]
  | p :: rest => if p.1 = k then (k, v) :: rest else p :: dbSet rest k v

/-- Unit/app status values used by charm.py (`ActiveStatus()`,
`WaitingStatus(msg)`). -/
inductive OpsStatus : Type where
  | active : OpsStatus
  | waiting : String → OpsStatus
deriving DecidableEq

/-- A Python exception escaping an embedded method.  The only one the
verified code can raise is the `AttributeError` from `self._peers.data`
when `self._peers` is `None`. -/
inductive PyErr : Type where
  | attributeError : PyErr
deriving DecidableEq

/-- The slice of `self` (a `RedisK8sCharm` instance plus its Juju model)
that the verified methods touch.  `peers` is the application databag of
the peer relation (`self._peers.data[self.app]`), or `none` when the
peer relation does not exist. -/
structure Charm : Type where
  isLeader : Bool
  peers : Option Databag
  unitStatus : OpsStatus
  appStatus : OpsStatus
  workloadVersion : Option String
deriving DecidableEq

/-- charm.py line 25: `PEER_PASSWORD_KEY = "redis-password"`. -/
def PEER_PASSWORD_KEY : String := "redis-password"

/-- charm.py line 22: `WAITING_MESSAGE = "Waiting for Redis..."`. -/
def WAITING_MESSAGE : String := "Waiting for Redis..."

/-- Python `string.ascii_letters + string.digits`: the 62-symbol
alphanumeric alphabet used by `_generate_password`. -/
def choices : List Char :=
  "abcdefghijklmnopqrstuvwxyzABCDEFGHIJKLMNOPQRSTUVWXYZ0123456789".data

theorem choices_length : choices.length = 62 := by decide

/-- An outcome of the sixteen `secrets.choice(choices)` draws: the index
the CSPRNG picks at each of the 16 positions. -/
def Draws : Type := Fin 16 → Fin 62

/-- charm.py `_generate_password` (lines 198-206): sixteen
`secrets.choice` draws from the alphanumeric alphabet, joined.  The
randomness enters through `r`. -/
def _generate_password (r : Draws) : String :=
  ⟨(List.finRange 16).map (fun i => choices.get (Fin.cast choices_length.symm (r i)))⟩

/-- charm.py `_get_password` (lines 208-215):
`data = self._peers.data[self.app]; return data.get(PEER_PASSWORD_KEY, "")`.
Raises `AttributeError` when the peer relation is absent; otherwise a
pure read returning the state unchanged. -/
def _get_password (c : Charm) : Except PyErr (String × Charm) :=
  match c.peers with
  | none => .error .attributeError
  | some data => .ok (dbGet data PEER_PASSWORD_KEY "", c)

/-- charm.py `_leader_elected` (lines 61-77): read the password; if it
is falsy (empty), generate a new one and store it under
`PEER_PASSWORD_KEY` in the peer application databag (the subsequent
`logger.info` only re-reads the databag).  The returned `Bool` is
instrumentation recording whether the store write on line 70 executed. -/
def _leader_elected (r : Draws) (c : Charm) : Except PyErr (Charm × Bool) :=
  match _get_password c with
  | .error e => .error e
  | .ok (redis_password, c₁) =>
    if redis_password = "" then
      match c₁.peers with
      | none => .error .attributeError
      | some data =>
        .ok ({ c₁ with
                peers := some (dbSet data PEER_PASSWORD_KEY (_generate_password r)) },
             true)
    else
      .ok (c₁, false)

/-- charm.py `_get_password_action` (lines 182-187):
`event.set_results({"redis-password": self._get_password()})`.  The
action results are returned as the key/value list passed to
`set_results`. -/
def _get_password_action (c : Charm) : Except PyErr (List (String × String) × Charm) :=
  match _get_password c with
  | .error e => .error e
  | .ok (pw, c₁) => .ok ([("redis-password", pw)], c₁)

/-- The Pebble layer configuration built by `_redis_layer`
(charm.py lines 130-149), flattened into its string fields. -/
structure RedisLayer : Type where
  summary : String
  description : String
  serviceOverride : String
  serviceSummary : String
  command : String
  startup : String
  environmentRedisPassword : String
deriving DecidableEq

/-- charm.py `_redis_layer` (lines 130-149): the literal layer dict, with
`REDIS_PASSWORD` set from `self._get_password()`. -/
def _redis_layer (c : Charm) : Except PyErr RedisLayer :=
  match _get_password c with
  | .error e => .error e
  | .ok (pw, _) =>
    .ok ⟨"Redis layer", "Redis layer", "replace", "Redis service",
         "/usr/local/bin/start-redis.sh redis-server", "enabled", pw⟩

/-- Outcome of the external Redis health probe
(`Redis(password=...).info("server")["redis_version"]`, an external
collaborator): either the reported server version, or a `RedisError`. -/
def ProbeResult : Type := Except Unit String

/-- charm.py `_redis_check` (lines 151-166): on probe success set the
unit (and, for the leader, the app) status to active, record the
workload version and return `true`; on `RedisError` set the statuses to
waiting with `WAITING_MESSAGE` and return `false`.  The password read on
line 154 happens first and its `AttributeError` (not a `RedisError`)
escapes the `try`. -/
def _redis_check (probe : ProbeResult) (c : Charm) : Except PyErr (Bool × Charm) :=
  match _get_password c with
  | .error e => .error e
  | .ok (_, c₁) =>
    match probe with
    | .ok version =>
      let c₂ := { c₁ with unitStatus := .active, workloadVersion := some version }
      let c₃ := if c₂.isLeader then { c₂ with appStatus := .active } else c₂
      .ok (true, c₃)
    | .error _ =>
      let c₂ := { c₁ with unitStatus := .waiting WAITING_MESSAGE }
      let c₃ := if c₂.isLeader then { c₂ with appStatus := .waiting WAITING_MESSAGE } else c₂
      .ok (false, c₃)

/-- charm.py `check_service` (lines 168-180): run `_redis_check` and set
exactly one action result under the key `"result"`. -/
def check_service (probe : ProbeResult) (c : Charm) : Except PyErr (List (String × String) × Charm) :=
  match _redis_check probe c with
  | .error e => .error e
  | .ok (b, c₁) =>
    .ok ([("result", if b then "Service is running" else "Service is not running")], c₁)

/-- A sequence of `leader_elected` deliveries: fold `_leader_elected`
over the list of per-invocation CSPRNG draws, counting how many store
writes executed. -/
def leRun (rs : List Draws) (c : Charm) : Except PyErr (Charm × Nat) :=
  match rs with
  | [] => .ok (c, 0)
  | r :: rest =>
    match _leader_elected r c with
    | .error e => .error e
    | .ok (c₁, w) =>
      match leRun rest c₁ with
      | .error e => .error e
      | .ok (c₂, n) => .ok (c₂, n + (if w then 1 else 0))

/-! ### Databag lemmas -/

theorem dbGet_dbSet_self (d : Databag) (k v dflt : String) :
    dbGet (dbSet d k v) k dflt = v := by
  induction d with
  | nil => simp [dbGet, dbSet]
  | cons p rest ih =>
    by_cases h : p.1 = k
    · simp [dbGet, dbSet, h]
    · simp [dbGet, dbSet, h, ih]

theorem dbGet_absent (d : Databag) (k dflt : String)
    (h : ∀ p ∈ d, p.1 ≠ k) : dbGet d k dflt = dflt := by
  induction d with
  | nil => rfl
  | cons p rest ih =>
    have hp : p.1 ≠ k := h p (List.mem_cons_self p rest)
    simp only [dbGet, if_neg hp]
    exact ih (fun q hq => h q (List.mem_cons_of_mem p hq))

/-! ### Generated-password lemmas -/

theorem generate_password_length (r : Draws) :
    (_generate_password r).length = 16 := by
  simp [_generate_password, String.length]

theorem generate_password_mem_choices (r : Draws) :
    ∀ ch ∈ (_generate_password r).data, ch ∈ choices := by
  intro ch hch
  simp only [_generate_password] at hch
  obtain ⟨i, _, rfl⟩ := List.mem_map.mp hch
  exact choices.get_mem _ _

theorem generate_password_ne_empty (r : Draws) : _generate_password r ≠ "" := by
  intro h
  have := congrArg String.length h
  rw [generate_password_length] at this
  simp [String.length] at this

/-! ### `_leader_elected` step lemmas -/

theorem get_password_eq (c : Charm) (d : Databag) (h : c.peers = some d) :
    _get_password c = .ok (dbGet d PEER_PASSWORD_KEY "", c) := by
  simp [_get_password, h]

theorem leader_elected_noop (r : Draws) (c : Charm) (d : Databag)
    (h : c.peers = some d) (hne : dbGet d PEER_PASSWORD_KEY "" ≠ "") :
    _leader_elected r c = .ok (c, false) := by
  simp [_leader_elected, get_password_eq c d h, hne]

theorem leader_elected_write (r : Draws) (c : Charm) (d : Databag)
    (h : c.peers = some d) (he : dbGet d PEER_PASSWORD_KEY "" = "") :
    _leader_elected r c =
      .ok ({ c with peers := some (dbSet d PEER_PASSWORD_KEY (_generate_password r)) },
           true) := by
  simp [_leader_elected, get_password_eq c d h, he, h]

theorem leRun_noop (rs : List Draws) (c : Charm) (d : Databag)
    (h : c.peers = some d) (hne : dbGet d PEER_PASSWORD_KEY "" ≠ "") :
    leRun rs c = .ok (c, 0) := by
  induction rs with
  | nil => rfl
  | cons r rest ih =>
    simp [leRun, leader_elected_noop r c d h hne, ih]

/-- The per-group state-machine state of the spec (UNPROVISIONED vs
PROVISIONED), read off the charm state exactly the way `_get_password`
reads the store: PROVISIONED iff the credential read succeeds and
returns a non-empty value. -/
def provisioned (c : Charm) : Bool :=
  match _get_password c with
  | .error _ => false
  | .ok (v, _) => v != ""

theorem provisioned_some (c : Charm) (d : Databag) (h : c.peers = some d) :
    provisioned c = (dbGet d PEER_PASSWORD_KEY "" != "") := by
  simp [provisioned, _get_password, h]

/-! ### Concrete fixtures used by the witnesses -/

/-- CSPRNG draws that always pick index 0 (the letter `a`). -/
def draws0 : Draws := fun _ => 0

/-- CSPRNG draws that always pick index 1 (the letter `b`). -/
def draws1 : Draws := fun _ => 1

/-- A fresh, never-provisioned peer application databag. -/
def dbEmpty : Databag := []

/-- A databag already holding a credential. -/
def dbProvisioned : Databag := [("redis-password", "s3cr3t")]

/-- A databag with unrelated keys only: the credential key was never
provisioned. -/
def dbOther : Databag := [("unit-address", "10.0.0.1")]

def charmFresh : Charm := ⟨true, some dbEmpty, .active, .active, none⟩

def charmProvisioned : Charm := ⟨true, some dbProvisioned, .active, .active, none⟩

def charmOther : Charm := ⟨false, some dbOther, .active, .active, none⟩

def charmNoPeers : Charm := ⟨true, none, .active, .active, none⟩

/-- The state `charmFresh` reaches after one `_leader_elected` delivery
with draws `draws0`. -/
def charmAfter : Charm :=
  ⟨true, some [("redis-password", "aaaaaaaaaaaaaaaa")], .active, .active, none⟩

/-! ### C2 -/

/-- C2: calling the leader-elected handler when the read of the
credential key returns a non-empty value performs zero store writes and
returns with the charm state (hence the stored credential) unchanged. -/
theorem c2_second_call_noop (r : Draws) (c : Charm) (d : Databag)
    (h : c.peers = some d) (hne : dbGet d PEER_PASSWORD_KEY "" ≠ "") :
    _leader_elected r c = .ok (c, false) :=
  leader_elected_noop r c d h hne

/-- Witness for C2 at a provisioned store. -/
theorem c2_second_call_noop_witness :
    _leader_elected draws0 charmProvisioned = .ok (charmProvisioned, false) :=
  c2_second_call_noop draws0 charmProvisioned dbProvisioned rfl (by decide)

/-! ### C4 -/

theorem choices_alphanumeric :
    ∀ ch ∈ choices,
      ('A' ≤ ch ∧ ch ≤ 'Z') ∨ ('a' ≤ ch ∧ ch ≤ 'z') ∨ ('0' ≤ ch ∧ ch ≤ '9') := by
  decide

/-- C4: every invocation of `_generate_password` returns a string of
exactly 16 characters, each drawn from the 62-symbol alphanumeric
alphabet `[A-Za-z0-9]`. -/
theorem c4_generate_password_shape (r : Draws) :
    (_generate_password r).length = 16 ∧
    ∀ ch ∈ (_generate_password r).data,
      ('A' ≤ ch ∧ ch ≤ 'Z') ∨ ('a' ≤ ch ∧ ch ≤ 'z') ∨ ('0' ≤ ch ∧ ch ≤ '9') :=
  ⟨generate_password_length r,
   fun ch hch => choices_alphanumeric ch (generate_password_mem_choices r ch hch)⟩

/-- Witness for C4 at concrete draws and a concrete character of the
resulting password. -/
theorem c4_generate_password_shape_witness :
    (_generate_password draws0).length = 16 ∧
    (('A' ≤ 'a' ∧ 'a' ≤ 'Z') ∨ ('a' ≤ 'a' ∧ 'a' ≤ 'z') ∨ ('0' ≤ 'a' ∧ 'a' ≤ '9')) :=
  ⟨(c4_generate_password_shape draws0).1,
   (c4_generate_password_shape draws0).2 'a' (by decide)⟩

/-! ### C5 -/

/-- C5: when the credential key was never provisioned (no entry with
that key exists in the databag), `_get_password` returns the empty
string rather than failing, and leaves the state unchanged. -/
theorem c5_unprovisioned_read_empty (c : Charm) (d : Databag)
    (h : c.peers = some d) (habs : ∀ p ∈ d, p.1 ≠ PEER_PASSWORD_KEY) :
    _get_password c = .ok ("", c) := by
  rw [get_password_eq c d h, dbGet_absent d PEER_PASSWORD_KEY "" habs]

/-- Witness for C5 at a databag holding only unrelated keys. -/
theorem c5_unprovisioned_read_empty_witness :
    _get_password charmOther = .ok ("", charmOther) :=
  c5_unprovisioned_read_empty charmOther dbOther rfl (by decide)

/-! ### C7 -/

/-- C7: `_get_password` is a pure read: whenever the peer relation is
present it succeeds, returns the stored value, performs no writes (the
returned state is exactly the input state), and behaves identically for
any value of the leadership flag. -/
theorem c7_get_password_pure_read (c : Charm) (d : Databag)
    (h : c.peers = some d) :
    _get_password c = .ok (dbGet d PEER_PASSWORD_KEY "", c) ∧
    ∀ b : Bool,
      _get_password { c with isLeader := b } =
        .ok (dbGet d PEER_PASSWORD_KEY "", { c with isLeader := b }) := by
  refine ⟨get_password_eq c d h, fun b => get_password_eq _ d ?_⟩
  simpa using h

/-- Witness for C7 at a provisioned store, with the leadership flag
instantiated to `false`. -/
theorem c7_get_password_pure_read_witness :
    _get_password charmProvisioned = .ok ("s3cr3t", charmProvisioned) ∧
    _get_password { charmProvisioned with isLeader := false } =
      .ok ("s3cr3t", { charmProvisioned with isLeader := false }) :=
  ⟨(c7_get_password_pure_read charmProvisioned dbProvisioned rfl).1,
   (c7_get_password_pure_read charmProvisioned dbProvisioned rfl).2 false⟩

/-! ### C1 -/

/-- C1: over any sequence of leader-elected deliveries against a charm
whose peer relation is present, at most one store write to the
credential key ever occurs; if the stored credential is already
non-empty the state is never modified (zero writes); and from the
UNPROVISIONED state a non-empty sequence performs exactly one write and
ends PROVISIONED, with no transition back. -/
theorem c1_at_most_one_write (rs : List Draws) (c c' : Charm) (n : Nat)
    (d : Databag) (h : c.peers = some d) (hrun : leRun rs c = .ok (c', n)) :
    n ≤ 1 ∧
    (provisioned c = true → c' = c ∧ n = 0) ∧
    (provisioned c = false → rs ≠ [] → n = 1 ∧ provisioned c' = true) := by
  by_cases he : dbGet d PEER_PASSWORD_KEY "" = ""
  · have hpc : provisioned c = false := by
      simp [provisioned_some c d h, he]
    cases rs with
    | nil =>
      simp only [leRun, Except.ok.injEq, Prod.mk.injEq] at hrun
      obtain ⟨rfl, rfl⟩ := hrun
      exact ⟨Nat.zero_le 1, fun _ => ⟨rfl, rfl⟩, fun _ habs => absurd rfl habs⟩
    | cons r rest =>
      have hw := leader_elected_write r c d h he
      have hc₁p :
          ({ c with peers := some (dbSet d PEER_PASSWORD_KEY (_generate_password r)) } :
            Charm).peers = some (dbSet d PEER_PASSWORD_KEY (_generate_password r)) := rfl
      have hrest :
          leRun rest { c with peers := some (dbSet d PEER_PASSWORD_KEY (_generate_password r)) } =
            .ok ({ c with peers := some (dbSet d PEER_PASSWORD_KEY (_generate_password r)) }, 0) :=
        leRun_noop rest _ _ hc₁p
          (by rw [dbGet_dbSet_self]; exact generate_password_ne_empty r)
      rw [show leRun (r :: rest) c =
            .ok ({ c with peers := some (dbSet d PEER_PASSWORD_KEY (_generate_password r)) }, 1)
          from by simp [leRun, hw, hrest]] at hrun
      simp only [Except.ok.injEq, Prod.mk.injEq] at hrun
      obtain ⟨rfl, rfl⟩ := hrun
      refine ⟨Nat.le_refl 1, fun hp => ?_, fun _ _ => ⟨rfl, ?_⟩⟩
      · rw [hpc] at hp; cases hp
      · rw [provisioned_some _ _ hc₁p, dbGet_dbSet_self]
        simp [bne_iff_ne, generate_password_ne_empty r]
  · have hpc : provisioned c = true := by
      simp [provisioned_some c d h, bne_iff_ne, he]
    rw [leRun_noop rs c d h he] at hrun
    simp only [Except.ok.injEq, Prod.mk.injEq] at hrun
    obtain ⟨rfl, rfl⟩ := hrun
    refine ⟨Nat.zero_le 1, fun _ => ⟨rfl, rfl⟩, fun hp _ => ?_⟩
    rw [hpc] at hp; cases hp

/-- Witness for C1: one delivery against a fresh store performs exactly
one write and ends PROVISIONED. -/
theorem c1_at_most_one_write_witness :
    (1 : Nat) ≤ 1 ∧
    (provisioned charmFresh = true → charmAfter = charmFresh ∧ (1 : Nat) = 0) ∧
    (provisioned charmFresh = false → [draws0] ≠ [] →
      (1 : Nat) = 1 ∧ provisioned charmAfter = true) :=
  c1_at_most_one_write [draws0] charmFresh charmAfter 1 dbEmpty rfl rfl

/-! ### C3 -/

/-- C3: after a successful leader-elected delivery the store read
returns a non-empty credential with the state unchanged by the read
(hence stable over any number of repeated reads); when the handler wrote
(`w = true`) the value read is exactly the generated password, and when
it did not (`w = false`) the state is untouched and the read returns the
pre-existing non-empty value. -/
theorem c3_provisioned_value_readable (r : Draws) (c c' : Charm) (w : Bool)
    (d : Databag) (h : c.peers = some d)
    (hrun : _leader_elected r c = .ok (c', w)) :
    (w = true →
      _get_password c' = .ok (_generate_password r, c') ∧ _generate_password r ≠ "") ∧
    (w = false →
      c' = c ∧ _get_password c' = .ok (dbGet d PEER_PASSWORD_KEY "", c') ∧
        dbGet d PEER_PASSWORD_KEY "" ≠ "") := by
  by_cases he : dbGet d PEER_PASSWORD_KEY "" = ""
  · rw [leader_elected_write r c d h he] at hrun
    simp only [Except.ok.injEq, Prod.mk.injEq] at hrun
    obtain ⟨rfl, rfl⟩ := hrun
    refine ⟨fun _ => ⟨?_, generate_password_ne_empty r⟩, fun hf => by cases hf⟩
    rw [get_password_eq _ (dbSet d PEER_PASSWORD_KEY (_generate_password r)) rfl,
        dbGet_dbSet_self]
  · rw [leader_elected_noop r c d h he] at hrun
    simp only [Except.ok.injEq, Prod.mk.injEq] at hrun
    obtain ⟨rfl, rfl⟩ := hrun
    refine ⟨fun ht => ?_, fun _ => ⟨rfl, get_password_eq c d h, he⟩⟩
    cases ht

/-- Witness for C3: the first delivery against a fresh store writes, and
the subsequent read returns exactly the generated password. -/
theorem c3_provisioned_value_readable_witness :
    (true = true →
      _get_password charmAfter = .ok (_generate_password draws0, charmAfter) ∧
        _generate_password draws0 ≠ "") ∧
    (true = false →
      charmAfter = charmFresh ∧
        _get_password charmAfter = .ok (dbGet dbEmpty PEER_PASSWORD_KEY "", charmAfter) ∧
        dbGet dbEmpty PEER_PASSWORD_KEY "" ≠ "") :=
  c3_provisioned_value_readable draws0 charmFresh charmAfter true dbEmpty rfl rfl

/-! ### C9 -/

/-- Projection of an action-returning method outcome onto the results
list passed to `event.set_results`. -/
def resultsOf (x : Except PyErr (List (String × String) × Charm)) :
    Option (List (String × String)) :=
  match x with
  | .error _ => none
  | .ok (res, _) => some res

/-- Projection of an action-returning method outcome onto the resulting
unit status. -/
def unitStatusOf (x : Except PyErr (List (String × String) × Charm)) :
    Option OpsStatus :=
  match x with
  | .error _ => none
  | .ok (_, c) => some c.unitStatus

/-- C9: every operation that touches the credential dereferences the
Optional peer relation unguarded, so when the peer relation is absent
each of them raises (`AttributeError`) instead of returning an absent
value: the credential read, the leader-elected handler, the
get-initial-admin-password action, the layer renderer, and the
check-service action (whose health check reads the password first). -/
theorem c9_missing_peer_relation_raises (r : Draws) (pr : ProbeResult)
    (c : Charm) (h : c.peers = none) :
    _get_password c = .error .attributeError ∧
    _leader_elected r c = .error .attributeError ∧
    _get_password_action c = .error .attributeError ∧
    _redis_layer c = .error .attributeError ∧
    check_service pr c = .error .attributeError := by
  have hg : _get_password c = .error .attributeError := by
    simp [_get_password, h]
  exact ⟨hg, by simp [_leader_elected, hg], by simp [_get_password_action, hg],
         by simp [_redis_layer, hg], by simp [check_service, _redis_check, hg]⟩

/-- Witness for C9 at a charm with no peer relation. -/
theorem c9_missing_peer_relation_raises_witness :
    _get_password charmNoPeers = .error .attributeError ∧
    _leader_elected draws0 charmNoPeers = .error .attributeError ∧
    _get_password_action charmNoPeers = .error .attributeError ∧
    _redis_layer charmNoPeers = .error .attributeError ∧
    check_service (.ok "7.0.4") charmNoPeers = .error .attributeError :=
  c9_missing_peer_relation_raises draws0 (.ok "7.0.4") charmNoPeers rfl

/-! ### C10 -/

/-- C10: whenever the peer relation is present, `check_service` sets
exactly one result entry under the key `"result"`, whose value is
`"Service is running"` when the health probe succeeds and
`"Service is not running"` when it raises a `RedisError`; in the failure
case the unit status becomes waiting with `"Waiting for Redis..."`. -/
theorem c10_check_service_result (pr : ProbeResult) (c : Charm)
    (d : Databag) (h : c.peers = some d) :
    resultsOf (check_service pr c) =
      some [("result", match pr with
                       | .ok _ => "Service is running"
                       | .error _ => "Service is not running")] ∧
    (pr = .error () →
      unitStatusOf (check_service pr c) =
        some (.waiting "Waiting for Redis...")) := by
  cases pr with
  | ok v =>
    refine ⟨?_, fun hpe => by cases hpe⟩
    by_cases hb : c.isLeader <;>
      simp [check_service, _redis_check, _get_password, h, resultsOf, hb]
  | error e =>
    refine ⟨?_, fun _ => ?_⟩ <;>
      by_cases hb : c.isLeader <;>
        simp [check_service, _redis_check, _get_password, h, resultsOf,
              unitStatusOf, WAITING_MESSAGE, hb]

/-- Witness for C10 at a failing probe. -/
theorem c10_check_service_result_witness :
    resultsOf (check_service (.error ()) charmProvisioned) =
      some [("result", "Service is not running")] ∧
    unitStatusOf (check_service (.error ()) charmProvisioned) =
      some (.waiting "Waiting for Redis...") :=
  ⟨(c10_check_service_result (.error ()) charmProvisioned dbProvisioned rfl).1,
   (c10_check_service_result (.error ()) charmProvisioned dbProvisioned rfl).2 rfl⟩

/-! ### C6 : concurrent invocations -/

/-- A store interaction of one in-flight `_leader_elected` call: the
read of the credential key (charm.py line 67) or the conditional write
(line 70). -/
inductive Act : Type where
  | read : Act
  | write : Act
deriving DecidableEq

/-- Global state of N in-flight `_leader_elected` calls against one
shared peer databag: the store, each caller's view of what its own read
returned (`none` while its read has not executed), and the count of
store writes executed. -/
structure ConcState : Type where
  store : Databag
  reads : List (Option String)
  writes : Nat
deriving DecidableEq

/-- A fresh store with `n` callers, none of which has read yet. -/
def concInit (n : Nat) : ConcState := ⟨[], List.replicate n none, 0⟩

/-- One scheduled step of caller `i` holding generated value
`vals[i]`: its read records the current stored credential; its write
executes the line-70 assignment exactly when the value that caller's own
read returned was empty — the unconditional write of `_leader_elected`,
split at the suspension point between the two store round-trips. -/
def concStep (vals : List String) (s : ConcState) (ev : Nat × Act) : ConcState :=
  match ev.2 with
  | .read =>
    { s with reads := s.reads.set ev.1 (some (dbGet s.store PEER_PASSWORD_KEY "")) }
  | .write =>
    match s.reads.getD ev.1 none with
    | none => s
    | some pw =>
      if pw = "" then
        { s with
            store := dbSet s.store PEER_PASSWORD_KEY (vals.getD ev.1 ""),
            writes := s.writes + 1 }
      else s

/-- Run a schedule of interleaved read/write steps from a fresh store. -/
def concRun (vals : List String) (sched : List (Nat × Act)) : ConcState :=
  sched.foldl (concStep vals) (concInit vals.length)

/-- The generated values of the two concurrent callers in the
counterexample. -/
def valsCE : List String := [_generate_password draws0, _generate_password draws1]

/-- The schedule serializing each call: caller 0 reads then writes, then
caller 1, and so on. -/
def serialSched : Nat → List (Nat × Act)
  | 0 => []
  | n + 1 => serialSched n ++ [(n, .read), (n, .write)]

theorem getD_set_self (l : List (Option String)) (i : Nat) (a : Option String) :
    (l.set i a).getD i none = if i < l.length then a else none := by
  induction l generalizing i with
  | nil => simp
  | cons x xs ih =>
    cases i with
    | zero => simp
    | succ j => simpa [Nat.succ_lt_succ_iff] using ih j

/-- A serialized read/write pair by any caller against an already
provisioned store changes neither the store nor the write count. -/
theorem concStep_pair_provisioned (vals : List String) (s : ConcState) (i : Nat)
    (h : dbGet s.store PEER_PASSWORD_KEY "" ≠ "") :
    concStep vals (concStep vals s (i, .read)) (i, .write) =
      { s with reads := s.reads.set i (some (dbGet s.store PEER_PASSWORD_KEY "")) } := by
  simp only [concStep, getD_set_self]
  by_cases hlt : i < s.reads.length
  · simp [hlt, h]
  · simp [hlt]

/-- Serialized execution: after the first caller's read/write pair, and
for every further serialized pair, the store holds exactly the first
caller's value and exactly one write has executed. -/
theorem concFoldSerial (v0 : String) (rest : List String) (hv0 : v0 ≠ "") :
    ∀ k, 1 ≤ k →
      ((serialSched k).foldl (concStep (v0 :: rest)) (concInit (v0 :: rest).length)).store =
          dbSet [] PEER_PASSWORD_KEY v0 ∧
      ((serialSched k).foldl (concStep (v0 :: rest)) (concInit (v0 :: rest).length)).writes = 1 := by
  intro k hk
  induction k with
  | zero => cases hk
  | succ n ih =>
    cases Nat.lt_or_ge 1 (n + 1) with
    | inr hle =>
      have hn : n = 0 := by omega
      subst hn
      simp [serialSched, concInit, concStep, List.replicate, dbGet, hv0]
    | inl hlt =>
      have hn : 1 ≤ n := by omega
      obtain ⟨hstore, hwrites⟩ := ih hn
      have hprov : dbGet ((serialSched n).foldl (concStep (v0 :: rest))
          (concInit (v0 :: rest).length)).store PEER_PASSWORD_KEY "" ≠ "" := by
        rw [hstore, dbGet_dbSet_self]; exact hv0
      have hpair := concStep_pair_provisioned (v0 :: rest)
        ((serialSched n).foldl (concStep (v0 :: rest)) (concInit (v0 :: rest).length)) n hprov
      rw [serialSched, List.foldl_append]
      constructor
      · show (concStep (v0 :: rest) (concStep (v0 :: rest) _ (n, .read)) (n, .write)).store = _
        rw [hpair]
        exact hstore
      · show (concStep (v0 :: rest) (concStep (v0 :: rest) _ (n, .read)) (n, .write)).writes = _
        rw [hpair]
        exact hwrites

/-- C6 counterexample: two concurrent `_leader_elected` calls against a
fresh store, interleaved as read-0, read-1, write-0, write-1 (both reads
observe the empty store before either write).  The run performs two
store writes, and the group credential takes two different non-empty
values over the course of the run — first caller 0's generated value,
then caller 1's, which silently overwrites it.  This refutes the claim
that concurrent leadership transitions never produce two different
values for the same group. -/
theorem c6_interleaving_two_values :
    dbGet (concRun valsCE [(0, .read), (1, .read), (0, .write)]).store
        PEER_PASSWORD_KEY "" = _generate_password draws0 ∧
    dbGet (concRun valsCE [(0, .read), (1, .read), (0, .write), (1, .write)]).store
        PEER_PASSWORD_KEY "" = _generate_password draws1 ∧
    _generate_password draws0 ≠ _generate_password draws1 ∧
    _generate_password draws0 ≠ "" ∧
    _generate_password draws1 ≠ "" ∧
    (concRun valsCE [(0, .read), (1, .read), (0, .write), (1, .write)]).writes = 2 :=
  ⟨rfl, rfl, by decide, by decide, by decide, rfl⟩

/-- C6 (amended): for N ≥ 1 calls whose generated values come from
`_generate_password`, when the calls are serialized (each call's read
and write are adjacent, i.e. each call runs to completion before the
next begins — the schedule the platform's serialized event dispatch
produces), exactly one store write occurs and the final credential every
subsequent read observes is exactly the first caller's generated value. -/
theorem c6_serialized_single_value (g : Draws) (gs : List Draws) :
    (concRun ((g :: gs).map _generate_password)
        (serialSched ((g :: gs).map _generate_password).length)).writes = 1 ∧
    dbGet (concRun ((g :: gs).map _generate_password)
        (serialSched ((g :: gs).map _generate_password).length)).store
      PEER_PASSWORD_KEY "" = _generate_password g := by
  have h := concFoldSerial (_generate_password g) (gs.map _generate_password)
    (generate_password_ne_empty g) ((g :: gs).map _generate_password).length
    (by simp)
  simp only [List.map_cons] at h
  refine ⟨h.2, ?_⟩
  show dbGet ((serialSched _).foldl (concStep _) (concInit _)).store PEER_PASSWORD_KEY "" = _
  rw [show ((g :: gs).map _generate_password) =
        _generate_password g :: gs.map _generate_password from List.map_cons _ _ _]
  rw [h.1, dbGet_dbSet_self]
